import Mathlib

/-
Verification of the task-queue / pipeline-coordinator core of the
OpenClawAgents repository, as a shallow embedding in Lean 4.

The embedding follows the Python source:
  * src/src/orchestration/task_manager.py   (Task, TaskQueue, Coordinator)
  * src/backend/src/workflow/workflow_engine.py  (WorkflowEngine)
  * src/backend/src/config/settings.py      (EnvironmentConfig.MAX_ITERATIONS,
                                             agent registration order)

Modelling conventions:
  * timestamps (datetime.now().isoformat()) are modelled as a Nat clock that
    is read and incremented once per mutating TaskQueue call; only the
    relative order of timestamps is ever observable in the source;
  * JSON payload / result dictionaries are association lists preserving
    insertion order, exactly like Python dicts;
  * the persisted tasks.json file is a FileState: missing, unreadable or
    unparseable (both raise inside _load_all_tasks and are caught), or a
    parsed list of tasks in file order;
  * a fallible durable write (open plus json.dump inside the try/except of
    _persist_tasks) is modelled by a three-way outcome: the dump completes;
    open() itself raises before the file is touched (previous content
    remains); or open() truncates the file and json.dump then raises
    midway, leaving an empty or partial — hence unparseable — file.  In
    every failure case the exception is swallowed after logging;
  * uuid-generated task ids are supplied as explicit arguments;
  * an agent's execute_task is an opaque function payload -> Option result,
    none modelling a raised exception.
-/

namespace OpenClawAgents

/-- Lifecycle states of a task, from TaskStatus in task_manager.py. -/
inductive TaskStatus where
  | pending
  | assigned
  | in_progress
  | completed
  | failed
  | blocked
deriving DecidableEq, Repr

/-- Priority levels, from TaskPriority in task_manager.py. -/
inductive TaskPriority where
  | low
  | medium
  | high
  | critical
deriving DecidableEq, Repr

/-- Numeric value of a priority (lower value = higher priority), from the
enum values LOW=3, MEDIUM=2, HIGH=1, CRITICAL=0. -/
def TaskPriority.value : TaskPriority → Nat
  | .low => 3
  | .medium => 2
  | .high => 1
  | .critical => 0

/-- JSON-like values stored in task payloads and results. -/
inductive Val where
  | vstr : String → Val
  | vnat : Nat → Val
  | vobj : List (String × Val) → Val

/-- Python dict with string keys, as an insertion-ordered association list. -/
abbrev Dict := List (String × Val)

/-- Python truthiness of a value: empty string, zero and empty dict are
falsy. -/
def Val.truthy : Val → Bool
  | .vstr s => !(s = "")
  | .vnat n => !(n = 0)
  | .vobj l => !l.isEmpty

/-- Python d.get(k): first binding of k, or None. -/
def getK (k : String) : Dict → Option Val
  | [] => none
  | kv :: rest => if kv.1 = k then some kv.2 else getK k rest

/-- Python d.get(k, default). -/
def getD (d : Dict) (k : String) (default : Val) : Val :=
  match getK k d with
  | some v => v
  | none => default

/-- Python d[k] = v: overwrite in place if the key exists, else append. -/
def setK (d : Dict) (k : String) (v : Val) : Dict :=
  if (getK k d).isSome then
    d.map fun kv => if kv.1 = k then (k, v) else kv
  else d ++ [(k, v)]

/-- Task record, from the Task dataclass in task_manager.py. -/
structure Task where
  id : String
  title : String
  assigned_agent : String
  status : TaskStatus
  priority : TaskPriority
  dependencies : List String
  payload : Dict
  created_at : Nat
  updated_at : Nat
  assigned_at : Option Nat
  completed_at : Option Nat
  result : Option Dict

/-- State of the persisted tasks.json file: absent, present but raising on
read/parse (the except branch of _load_all_tasks), or a parsed task list in
file order. -/
inductive FileState where
  | missing
  | corrupt
  | good : List Task → FileState

/-- TaskQueue._load_all_tasks: returns the parsed list, and the empty list
when the file is absent or any exception is raised while reading/parsing. -/
def _load_all_tasks : FileState → List Task
  | .missing => []
  | .corrupt => []
  | .good ts => ts

/-- Outcome of one durable write attempt of _persist_tasks: the dump
completes; open() raises before the file is touched; or open() truncates
the file and json.dump then raises midway through writing. -/
inductive WriteOutcome where
  | ok
  | openFail
  | dumpFail

/-- TaskQueue._persist_tasks: open(file, "w") plus json.dump inside
try/except — any exception is logged and swallowed.  When open() itself
fails the previous file content remains; when the dump fails after open()
has already truncated the file, the file is left empty or partially
written, i.e. it no longer parses. -/
def _persist_tasks (fs : FileState) (w : WriteOutcome) (ts : List Task) :
    FileState :=
  match w with
  | .ok => .good ts
  | .openFail => fs
  | .dumpFail => .corrupt

/-- TaskQueue._dependencies_satisfied: true when the dependency list is
empty, otherwise every dependency id must be found among all tasks with
status completed. -/
def _dependencies_satisfied (task : Task) (all_tasks : List Task) : Bool :=
  if task.dependencies.isEmpty then true
  else task.dependencies.all fun dep_id =>
    match all_tasks.find? (fun t => decide (t.id = dep_id)) with
    | some dep_task => decide (dep_task.status = TaskStatus.completed)
    | none => false

/-- Stable insertion of a task into a priority-sorted list: the new element
goes after every element whose priority value is less than or equal to its
own.  Used to model Python's stable sorted(key=lambda t: t.priority.value). -/
def insertByPriority (x : Task) : List Task → List Task
  | [] => [x]
  | y :: ys =>
    if x.priority.value < y.priority.value then x :: y :: ys
    else y :: insertByPriority x ys

/-- Python sorted(agent_tasks, key=lambda t: t.priority.value), a stable
ascending sort by priority value. -/
def sortByPriority (ts : List Task) : List Task :=
  ts.foldl (fun acc t => insertByPriority t acc) []

/-- TaskQueue.get_pending_tasks: load all tasks, keep the given agent's
pending tasks whose dependencies are satisfied, and sort by priority. -/
def get_pending_tasks (fs : FileState) (agent_id : String) : List Task :=
  let tasks := _load_all_tasks fs
  let agent_tasks := tasks.filter fun t =>
    decide (t.assigned_agent = agent_id) &&
    decide (t.status = TaskStatus.pending) &&
    _dependencies_satisfied t tasks
  sortByPriority agent_tasks

/-- TaskQueue.get_task: first live task with the given id, if any. -/
def get_task (fs : FileState) (task_id : String) : Option Task :=
  (_load_all_tasks fs).find? fun t => decide (t.id = task_id)

/-- Archive of completed tasks (the completed/ directory): per task id, a
file that either parses to the archived task or raises on read (none). -/
abbrev Archive := List (String × Option Task)

/-- Lookup of the archive file task_{id}.json: none when no file exists,
some entry when it does. -/
def lookupArchive (archive : Archive) (task_id : String) : Option (Option Task) :=
  match archive.find? (fun e => decide (e.1 = task_id)) with
  | some e => some e.2
  | none => none

/-- Result recovered from the archive branch of get_task_result: the parsed
archived dict's result field; None when the file is absent or unreadable. -/
def archiveResult (archive : Archive) (task_id : String) : Option Dict :=
  match lookupArchive archive task_id with
  | some (some data) => data.result
  | _ => none

/-- Python truthiness of an Optional[Dict]: None and the empty dict are
falsy (the `if task and task.result:` test). -/
def resultTruthy : Option Dict → Bool
  | none => false
  | some d => !d.isEmpty

/-- TaskQueue.get_task_result: live task's result if truthy, else the
archived task file's result field, else None. -/
def get_task_result (fs : FileState) (archive : Archive) (task_id : String) :
    Option Dict :=
  match get_task fs task_id with
  | some task =>
    if resultTruthy task.result then task.result
    else archiveResult archive task_id
  | none => archiveResult archive task_id

/-- Combined mutable state of a TaskQueue: the tasks.json file, the archive
directory, and the clock backing datetime.now(). -/
structure QState where
  fs : FileState
  archive : Archive
  clock : Nat

/-- TaskQueue.add_task: build a pending task stamped with now, append it to
the loaded task list, persist (failure swallowed), and return the new id
unconditionally. -/
def add_task (st : QState) (w : WriteOutcome) (task_id : String)
    (title : String) (assigned_agent : String) (payload : Dict)
    (priority : TaskPriority) (dependencies : List String) : QState × String :=
  let now := st.clock
  let task : Task :=
    { id := task_id, title := title, assigned_agent := assigned_agent,
      status := TaskStatus.pending, priority := priority,
      dependencies := dependencies, payload := payload,
      created_at := now, updated_at := now,
      assigned_at := none, completed_at := none, result := none }
  let tasks := _load_all_tasks st.fs ++ [task]
  ({ fs := _persist_tasks st.fs w tasks,
     archive := st.archive, clock := now + 1 }, task_id)

/-- In-place mutation performed by update_task_status on the matched task:
set the status, stamp updated_at, stamp assigned_at on in_progress, stamp
completed_at and write the result on completed. -/
def stampTask (now : Nat) (status : TaskStatus) (result : Option Dict)
    (t : Task) : Task :=
  { t with
    status := status,
    updated_at := now,
    assigned_at :=
      if status = TaskStatus.in_progress then some now else t.assigned_at,
    completed_at :=
      if status = TaskStatus.completed then some now else t.completed_at,
    result :=
      if status = TaskStatus.completed then result else t.result }

/-- Body of the update loop of TaskQueue.update_task_status: stamp the first
task whose id matches, leave the rest untouched (the loop breaks after the
first match); also return the task to archive when the new status is
completed. -/
def applyUpdate (now : Nat) (task_id : String) (status : TaskStatus)
    (result : Option Dict) : List Task → List Task × Option Task
  | [] => ([], none)
  | t :: ts =>
    if t.id = task_id then
      (stampTask now status result t :: ts,
       if status = TaskStatus.completed then
         some (stampTask now status result t)
       else none)
    else
      let r := applyUpdate now task_id status result ts
      (t :: r.1, r.2)

/-- Write of the archive file task_{id}.json (overwrites any previous one). -/
def setArchive (archive : Archive) (task_id : String) (entry : Option Task) :
    Archive :=
  if ((archive.find? fun e => decide (e.1 = task_id)).isSome) then
    archive.map fun e => if e.1 = task_id then (task_id, entry) else e
  else archive ++ [(task_id, entry)]

/-- TaskQueue.update_task_status: load all tasks, rewrite the first match
with the requested status (no transition check of any kind), archive it if
it was completed, and persist the whole list back. -/
def update_task_status (st : QState) (w : WriteOutcome) (task_id : String)
    (status : TaskStatus) (result : Option Dict) : QState :=
  let now := st.clock
  let tasks := _load_all_tasks st.fs
  let p := applyUpdate now task_id status result tasks
  let archive1 :=
    match p.2 with
    | some t => setArchive st.archive t.id (some t)
    | none => st.archive
  { fs := _persist_tasks st.fs w p.1,
    archive := archive1, clock := now + 1 }

/-- Value used as a task-id reference in a payload: get_task_result is
called on it, which can only match a task when the value is a string (a
non-string compares unequal to every id and no archive file matches). -/
def get_task_result_val (fs : FileState) (archive : Archive) (v : Val) :
    Option Dict :=
  match v with
  | .vstr s => get_task_result fs archive s
  | _ => none

/-- WorkflowEngine._load_dependent_task_data: the four wiring blocks that
copy fields of upstream results into the current task's payload.  Each
block reads the task-id reference from THIS task's payload, fetches the
referenced result, and, when the result is truthy, writes the designated
fields. -/
def _load_dependent_task_data (fs : FileState) (archive : Archive)
    (payload0 : Dict) : Dict :=
  -- research data for the analyst
  let p1 :=
    match getK "research_task_id" payload0 with
    | some rid =>
      if rid.truthy then
        match get_task_result_val fs archive rid with
        | some rr =>
          if !rr.isEmpty then setK payload0 "research_data" (Val.vobj rr)
          else payload0
        | none => payload0
      else payload0
    | none => payload0
  -- analysis data (outline, then research re-resolution) for the writer
  let p2 :=
    match getK "analysis_task_id" p1 with
    | some aid =>
      if aid.truthy then
        match get_task_result_val fs archive aid with
        | some ar =>
          if !ar.isEmpty then
            let q := setK p1 "outline" (getD ar "outline" (Val.vobj []))
            match getK "research_task_id" q with
            | some rid2 =>
              if rid2.truthy then
                match get_task_result_val fs archive rid2 with
                | some rr2 =>
                  if !rr2.isEmpty then setK q "research_data" (Val.vobj rr2)
                  else q
                | none => q
              else q
            | none => q
          else p1
        | none => p1
      else p1
    | none => p1
  -- writing data for the SEO stage
  let p3 :=
    match getK "writing_task_id" p2 with
    | some wid =>
      if wid.truthy then
        match get_task_result_val fs archive wid with
        | some wr =>
          if !wr.isEmpty then
            let q := setK p2 "content" (getD wr "content" (Val.vstr ""))
            setK q "topic" (getD wr "topic" (Val.vstr ""))
          else p2
        | none => p2
      else p2
    | none => p2
  -- SEO data for the quality stage
  match getK "seo_task_id" p3 with
  | some sid =>
    if sid.truthy then
      match get_task_result_val fs archive sid with
      | some sr =>
        if !sr.isEmpty then
          let q := setK p3 "content" (getD sr "optimized_content" (Val.vstr ""))
          setK q "seo_data" (Val.vobj sr)
        else p3
      | none => p3
    else p3
  | none => p3

/-- Pipeline handle returned by Coordinator.execute_content_pipeline:
pipeline id, topic, and the task ids in stage order research, analysis,
writing, seo, quality (the values of the tasks map). -/
structure Pipeline where
  pipeline_id : String
  topic : String
  task_ids : List String

/-- Coordinator.execute_content_pipeline: creates the five chained tasks
with the exact payload seeds, priorities and dependency lists of the
source, and returns the pipeline handle. -/
def execute_content_pipeline (st : QState) (pipeline_id : String)
    (rid aid wid sid qid : String) (topic : String) : QState × Pipeline :=
  let s1 := add_task st WriteOutcome.ok rid ("Research: " ++ topic)
    "agent:researcher:main"
    [("topic", Val.vstr topic), ("max_sources", Val.vnat 5),
     ("id", Val.vstr "")]
    TaskPriority.high []
  let s2 := add_task s1.1 WriteOutcome.ok aid ("Analyze: " ++ topic)
    "agent:analyst:main"
    [("research_task_id", Val.vstr rid), ("research_data", Val.vobj []),
     ("id", Val.vstr "")]
    TaskPriority.high [rid]
  let s3 := add_task s2.1 WriteOutcome.ok wid ("Write: " ++ topic)
    "agent:writer:main"
    [("analysis_task_id", Val.vstr aid), ("outline", Val.vobj []),
     ("style_guide", Val.vstr "professional"),
     ("research_data", Val.vobj []), ("id", Val.vstr "")]
    TaskPriority.medium [aid]
  let s4 := add_task s3.1 WriteOutcome.ok sid ("SEO Optimize: " ++ topic)
    "agent:seo:main"
    [("writing_task_id", Val.vstr wid), ("content", Val.vstr ""),
     ("topic", Val.vstr topic), ("id", Val.vstr "")]
    TaskPriority.medium [wid]
  let s5 := add_task s4.1 WriteOutcome.ok qid ("Quality Check: " ++ topic)
    "agent:quality:main"
    [("seo_task_id", Val.vstr sid), ("content", Val.vstr ""),
     ("seo_data", Val.vobj []), ("id", Val.vstr "")]
    TaskPriority.high [sid]
  (s5.1, { pipeline_id := pipeline_id, topic := topic,
           task_ids := [rid, aid, wid, sid, qid] })

/-- Behaviour of the worker agents: execute_task as an opaque function from
the wired payload to some result dict, or none when the call raises. -/
abbrev AgentExec := String → Dict → Option Dict

/-- Iteration order of WorkflowEngine.agents: insertion order from
_initialize_agents (AGENT_CONFIGURATIONS order with the coordinator
skipped and appended last). -/
def engineAgentIds : List String :=
  ["agent:researcher:main", "agent:analyst:main", "agent:writer:main",
   "agent:seo:main", "agent:quality:main", "agent:coordinator:main"]

/-- Body of the per-task loop of WorkflowEngine.process_pending_tasks: mark
in_progress, set the payload id, run the wiring step against the current
store, dispatch, then mark completed with the result or failed.  Returns
the new state and 1 when the task counted as processed (success only). -/
def processOneTask (ex : AgentExec) (agent_id : String) (st : QState)
    (t : Task) : QState × Nat :=
  let st1 := update_task_status st WriteOutcome.ok t.id TaskStatus.in_progress none
  let payload1 := setK t.payload "id" (Val.vstr t.id)
  let payload2 := _load_dependent_task_data st1.fs st1.archive payload1
  match ex agent_id payload2 with
  | some result =>
    (update_task_status st1 WriteOutcome.ok t.id TaskStatus.completed (some result), 1)
  | none =>
    (update_task_status st1 WriteOutcome.ok t.id TaskStatus.failed none, 0)

/-- Per-agent part of process_pending_tasks: skip the coordinator, read the
agent's ready set once, then process its tasks in order. -/
def processAgent (ex : AgentExec) (st : QState) (agent_id : String) :
    QState × Nat :=
  if agent_id = "agent:coordinator:main" then (st, 0)
  else
    let pending := get_pending_tasks st.fs agent_id
    pending.foldl
      (fun acc t =>
        let r := processOneTask ex agent_id acc.1 t
        (r.1, acc.2 + r.2))
      (st, 0)

/-- WorkflowEngine.process_pending_tasks: iterate over the agents in
registration order, returning the final state and the number of tasks
processed successfully. -/
def process_pending_tasks (ex : AgentExec) (st : QState) : QState × Nat :=
  engineAgentIds.foldl
    (fun acc aid =>
      let r := processAgent ex acc.1 aid
      (r.1, acc.2 + r.2))
    (st, 0)

/-- String value of a TaskStatus, from the Python enum values. -/
def statusValue : TaskStatus → String
  | .pending => "pending"
  | .assigned => "assigned"
  | .in_progress => "in_progress"
  | .completed => "completed"
  | .failed => "failed"
  | .blocked => "blocked"

/-- Live tasks whose id belongs to the pipeline (the filter on
pipeline["tasks"].values() in run_content_pipeline). -/
def pipelineTasks (fs : FileState) (pl : Pipeline) : List Task :=
  (_load_all_tasks fs).filter fun t => pl.task_ids.any fun i => decide (i = t.id)

/-- EnvironmentConfig.MAX_ITERATIONS, from settings.py. -/
def MAX_ITERATIONS : Nat := 20

/-- While loop of WorkflowEngine.run_content_pipeline: each round processes
pending tasks; when zero tasks were processed and every pipeline task is
completed, or every pipeline task is terminal, the loop breaks without a
further increment; otherwise the iteration counter advances and the loop
repeats while iteration < MAX_ITERATIONS (fuel = remaining iterations). -/
def runLoop (ex : AgentExec) (pl : Pipeline) (fuel : Nat) (st : QState)
    (iteration : Nat) : QState × Nat :=
  match fuel with
  | 0 => (st, iteration)
  | Nat.succ fuel1 =>
    let pr := process_pending_tasks ex st
    let st1 := pr.1
    if pr.2 = 0 then
      let pts := pipelineTasks st1.fs pl
      if pts.all fun t => decide (t.status = TaskStatus.completed) then
        (st1, iteration)
      else if pts.all fun t =>
          decide (t.status = TaskStatus.completed) ||
          decide (t.status = TaskStatus.failed) then
        (st1, iteration)
      else runLoop ex pl fuel1 st1 (iteration + 1)
    else runLoop ex pl fuel1 st1 (iteration + 1)

/-- WorkflowEngine.run_content_pipeline: build the pipeline, then drive the
bounded loop from iteration 0 with MAX_ITERATIONS as the ceiling; returns
the final state, the pipeline handle, and the reported iteration count. -/
def run_content_pipeline (ex : AgentExec) (pipeline_id : String)
    (rid aid wid sid qid : String) (topic : String) (st : QState) :
    QState × Pipeline × Nat :=
  let c := execute_content_pipeline st pipeline_id rid aid wid sid qid topic
  let r := runLoop ex c.2 MAX_ITERATIONS c.1 0
  (r.1, c.2, r.2)

/-- Per-task entry of the status report of get_pipeline_status. -/
structure PipelineStatusEntry where
  title : String
  status : String
  agent : String

/-- Status report of WorkflowEngine.get_pipeline_status. -/
structure PipelineStatusReport where
  pipeline_id : String
  tasks : List (String × PipelineStatusEntry)
  overall_status : String

/-- WorkflowEngine.get_pipeline_status: lists EVERY live task of the store
(the pipeline_id argument is only echoed back, never used as a filter), and
derives overall_status from the statuses of all those tasks. -/
def get_pipeline_status (fs : FileState) (pipeline_id : String) :
    PipelineStatusReport :=
  let all_tasks := _load_all_tasks fs
  let entries := all_tasks.map fun t =>
    (t.id, { title := t.title, status := statusValue t.status,
             agent := t.assigned_agent : PipelineStatusEntry })
  let task_statuses := entries.map fun e => e.2.status
  let overall :=
    if task_statuses.all fun s => decide (s = "completed") then "completed"
    else if task_statuses.any fun s => decide (s = "failed") then "failed"
    else if task_statuses.any fun s => decide (s = "in_progress") then
      "in_progress"
    else "pending"
  { pipeline_id := pipeline_id, tasks := entries, overall_status := overall }

/-! Helper lemmas about the stable priority sort. -/

/-- Membership is preserved by a single stable insertion. -/
theorem mem_insertByPriority {a x : Task} {l : List Task} :
    a ∈ insertByPriority x l ↔ a = x ∨ a ∈ l := by
  induction l with
  | nil => simp [insertByPriority]
  | cons y ys ih =>
    unfold insertByPriority
    split
    · simp only [List.mem_cons]
    · simp only [List.mem_cons, ih]
      tauto

/-- Membership after folding stable insertions over a list. -/
theorem mem_sortFold {a : Task} :
    ∀ (l acc : List Task),
    (a ∈ l.foldl (fun acc t => insertByPriority t acc) acc ↔
      a ∈ acc ∨ a ∈ l) := by
  intro l
  induction l with
  | nil => simp
  | cons t ts ih =>
    intro acc
    simp only [List.foldl_cons]
    rw [ih, mem_insertByPriority]
    simp [List.mem_cons]
    tauto

/-- Membership is preserved by sortByPriority. -/
theorem mem_sortByPriority {a : Task} {l : List Task} :
    a ∈ sortByPriority l ↔ a ∈ l := by
  unfold sortByPriority
  rw [mem_sortFold]
  simp

/-- Ordering relation claimed for the ready set: ascending priority value,
with ties in ascending creation order. -/
def prioRel (a b : Task) : Prop :=
  a.priority.value ≤ b.priority.value ∧
  (a.priority.value = b.priority.value → a.created_at ≤ b.created_at)

/-- Stable insertion preserves prioRel-sortedness when the inserted element
was created no earlier than everything already in the list. -/
theorem insertByPriority_pairwise (x : Task) :
    ∀ (l : List Task), List.Pairwise prioRel l →
    (∀ y ∈ l, y.created_at ≤ x.created_at) →
    List.Pairwise prioRel (insertByPriority x l) := by
  intro l
  induction l with
  | nil => intro _ _; simp [insertByPriority, prioRel]
  | cons y ys ih =>
    intro hp hca
    rw [List.pairwise_cons] at hp
    obtain ⟨hy, hys⟩ := hp
    unfold insertByPriority
    split
    · rename_i hlt
      rw [List.pairwise_cons]
      refine ⟨?_, List.pairwise_cons.mpr ⟨hy, hys⟩⟩
      intro z hz
      rw [List.mem_cons] at hz
      cases hz with
      | inl hzy =>
        subst hzy
        exact ⟨Nat.le_of_lt hlt, fun he => by omega⟩
      | inr hzys =>
        have h1 := (hy z hzys).1
        exact ⟨by omega, fun he => by omega⟩
    · rename_i hge
      rw [List.pairwise_cons]
      constructor
      · intro z hz
        rw [mem_insertByPriority] at hz
        cases hz with
        | inl hzx =>
          subst hzx
          exact ⟨by omega, fun _ => hca y (List.Mem.head _)⟩
        | inr hzys => exact hy z hzys
      · exact ih hys fun y2 hy2 => hca y2 (List.mem_cons_of_mem _ hy2)

/-- Folding stable insertions over a creation-ordered list yields a
prioRel-sorted list, given a sorted accumulator everywhere older than the
remaining input. -/
theorem sortFold_pairwise :
    ∀ (l acc : List Task), List.Pairwise prioRel acc →
    (∀ y ∈ acc, ∀ z ∈ l, y.created_at ≤ z.created_at) →
    List.Pairwise (fun a b => a.created_at ≤ b.created_at) l →
    List.Pairwise prioRel
      (l.foldl (fun acc t => insertByPriority t acc) acc) := by
  intro l
  induction l with
  | nil =>
    intro acc h _ _
    simpa using h
  | cons t ts ih =>
    intro acc hacc hord hl
    rw [List.pairwise_cons] at hl
    obtain ⟨ht, hts⟩ := hl
    simp only [List.foldl_cons]
    apply ih
    · exact insertByPriority_pairwise t acc hacc
        fun y hy => hord y hy t (List.Mem.head _)
    · intro y hy z hz
      rw [mem_insertByPriority] at hy
      cases hy with
      | inl hyt =>
        subst hyt
        exact ht z hz
      | inr hyacc => exact hord y hyacc z (List.mem_cons_of_mem _ hz)
    · exact hts

/-- sortByPriority of a creation-ordered list is prioRel-sorted. -/
theorem sortByPriority_pairwise (l : List Task)
    (hl : List.Pairwise (fun a b => a.created_at ≤ b.created_at) l) :
    List.Pairwise prioRel (sortByPriority l) := by
  unfold sortByPriority
  exact sortFold_pairwise l [] List.Pairwise.nil (by intro y hy; cases hy) hl

/-- C1: every task returned by get_pending_tasks is assigned to the queried
worker, is Pending, and has every dependency id present in the live task
set with status Completed (so a task with an unmet or missing dependency
never appears); a task with an empty dependency set always passes the
dependency check, hence is never excluded on dependency grounds. -/
theorem ready_tasks_dependency_gating (tasks : List Task) (agent_id : String) :
    (∀ t ∈ get_pending_tasks (FileState.good tasks) agent_id,
      t.assigned_agent = agent_id ∧ t.status = TaskStatus.pending ∧
      ∀ dep_id ∈ t.dependencies,
        ∃ d, d ∈ tasks ∧ d.id = dep_id ∧
          d.status = TaskStatus.completed) ∧
    (∀ t : Task, t.dependencies = [] →
      _dependencies_satisfied t tasks = true) := by
  constructor
  · intro t ht
    simp only [get_pending_tasks, _load_all_tasks] at ht
    rw [mem_sortByPriority, List.mem_filter] at ht
    obtain ⟨htm, hcond⟩ := ht
    simp only [Bool.and_eq_true, decide_eq_true_eq] at hcond
    obtain ⟨⟨ha, hs⟩, hdep⟩ := hcond
    refine ⟨ha, hs, ?_⟩
    intro dep_id hmem
    unfold _dependencies_satisfied at hdep
    by_cases he : t.dependencies.isEmpty
    · rw [List.isEmpty_iff] at he
      rw [he] at hmem
      cases hmem
    · rw [if_neg he, List.all_eq_true] at hdep
      have hthis := hdep dep_id hmem
      cases hf : tasks.find? fun x => decide (x.id = dep_id) with
      | none =>
        rw [hf] at hthis
        cases hthis
      | some d =>
        rw [hf] at hthis
        have hd := List.mem_of_find?_eq_some hf
        have hp := List.find?_some hf
        simp only [decide_eq_true_eq] at hp hthis
        exact ⟨d, hd, hp, hthis⟩
  · intro t h0
    unfold _dependencies_satisfied
    rw [h0]
    simp

/-- Completed upstream task used by the witness store. -/
def depTaskA : Task :=
  { id := "A", title := "Task A", assigned_agent := "w",
    status := TaskStatus.completed, priority := TaskPriority.high,
    dependencies := [], payload := [], created_at := 0, updated_at := 1,
    assigned_at := none, completed_at := some 1,
    result := some [("r", Val.vstr "x")] }

/-- Pending downstream task depending on depTaskA. -/
def depTaskB : Task :=
  { id := "B", title := "Task B", assigned_agent := "w",
    status := TaskStatus.pending, priority := TaskPriority.medium,
    dependencies := ["A"], payload := [], created_at := 2, updated_at := 2,
    assigned_at := none, completed_at := none, result := none }

/-- Two-task store: a completed dependency and its pending dependant. -/
def gatingStore : List Task := [depTaskA, depTaskB]

/-- Witness for C1: in the concrete store, the ready task B is assigned to
worker w, pending, with its single dependency A completed; and the
empty-dependency task A passes the dependency check. -/
theorem ready_tasks_dependency_gating_witness :
    (depTaskB.assigned_agent = "w" ∧ depTaskB.status = TaskStatus.pending ∧
      ∀ dep_id ∈ depTaskB.dependencies,
        ∃ d, d ∈ gatingStore ∧ d.id = dep_id ∧
          d.status = TaskStatus.completed) ∧
    _dependencies_satisfied depTaskA gatingStore = true :=
  ⟨(ready_tasks_dependency_gating gatingStore "w").1 depTaskB
      (by exact List.Mem.head _),
   (ready_tasks_dependency_gating gatingStore "w").2 depTaskA rfl⟩

/-- C5: when the live store lists tasks in creation order (created_at
nondecreasing, which holds for stores built by add_task appends), the ready
set is sorted ascending by priority value, and any two returned tasks of
equal priority appear in ascending creation order (FIFO among equal
priority, by stability of the sort). -/
theorem ready_tasks_priority_order (tasks : List Task) (agent_id : String)
    (hmono : List.Pairwise (fun a b => a.created_at ≤ b.created_at) tasks) :
    List.Pairwise prioRel
      (get_pending_tasks (FileState.good tasks) agent_id) := by
  simp only [get_pending_tasks, _load_all_tasks]
  apply sortByPriority_pairwise
  exact List.Pairwise.sublist (List.filter_sublist _) hmono

/-- Low-priority task created first. -/
def prTaskL : Task :=
  { id := "L", title := "Low", assigned_agent := "w",
    status := TaskStatus.pending, priority := TaskPriority.low,
    dependencies := [], payload := [], created_at := 0, updated_at := 0,
    assigned_at := none, completed_at := none, result := none }

/-- Critical-priority task created second. -/
def prTaskC : Task :=
  { id := "C", title := "Critical", assigned_agent := "w",
    status := TaskStatus.pending, priority := TaskPriority.critical,
    dependencies := [], payload := [], created_at := 1, updated_at := 1,
    assigned_at := none, completed_at := none, result := none }

/-- Medium-priority task created third. -/
def prTaskM : Task :=
  { id := "M", title := "Medium", assigned_agent := "w",
    status := TaskStatus.pending, priority := TaskPriority.medium,
    dependencies := [], payload := [], created_at := 2, updated_at := 2,
    assigned_at := none, completed_at := none, result := none }

/-- Three pending tasks of one worker in creation order. -/
def prioStore : List Task := [prTaskL, prTaskC, prTaskM]

/-- Witness for C5: the concrete three-task store is creation-ordered, and
its ready set is prioRel-sorted. -/
theorem ready_tasks_priority_order_witness :
    List.Pairwise prioRel
      (get_pending_tasks (FileState.good prioStore) "w") :=
  ready_tasks_priority_order prioStore "w"
    (by simp [prioStore, List.pairwise_cons, prTaskL, prTaskC, prTaskM])

/-- First-match behaviour of the update loop: when some live task carries
the requested id, the rewritten list contains a task with that id whose
status is exactly the requested one, and whose result is the supplied one
when the requested status is completed. -/
theorem applyUpdate_first_match (now : Nat) (tid : String) (s : TaskStatus)
    (r : Option Dict) :
    ∀ ts : List Task, (∃ t0 ∈ ts, t0.id = tid) →
    ∃ t1 ∈ (applyUpdate now tid s r ts).1,
      t1.id = tid ∧ t1.status = s ∧
      (s = TaskStatus.completed → t1.result = r) := by
  intro ts
  induction ts with
  | nil =>
    intro h
    obtain ⟨t0, h0, _⟩ := h
    cases h0
  | cons t rest ih =>
    intro h
    unfold applyUpdate
    by_cases hid : t.id = tid
    · rw [if_pos hid]
      refine ⟨stampTask now s r t, List.Mem.head _, hid, rfl, ?_⟩
      intro hc
      simp [stampTask, hc]
    · rw [if_neg hid]
      obtain ⟨t0, h0, hte⟩ := h
      have h0r : t0 ∈ rest := by
        cases h0 with
        | head => exact absurd hte hid
        | tail _ hh => exact hh
      obtain ⟨t1, h1, hi, hs, hr⟩ := ih ⟨t0, h0r, hte⟩
      exact ⟨t1, List.mem_cons_of_mem _ h1, hi, hs, hr⟩

/-- Behaviour of the update loop on the result fields when the requested
status is not completed: every task of the rewritten list keeps the result
(and id) of a task of the original list — the result field is never touched
by a non-completed write. -/
theorem applyUpdate_result_preserved (now : Nat) (tid : String)
    (s : TaskStatus) (r : Option Dict) (hs : s ≠ TaskStatus.completed) :
    ∀ ts : List Task, ∀ t1 ∈ (applyUpdate now tid s r ts).1,
    ∃ t0 ∈ ts, t1.id = t0.id ∧ t1.result = t0.result := by
  intro ts
  induction ts with
  | nil =>
    intro t1 h1
    cases h1
  | cons t rest ih =>
    intro t1 h1
    unfold applyUpdate at h1
    by_cases hid : t.id = tid
    · rw [if_pos hid] at h1
      cases h1 with
      | head =>
        refine ⟨t, List.Mem.head _, rfl, ?_⟩
        simp [stampTask, hs]
      | tail _ hh => exact ⟨t1, List.mem_cons_of_mem _ hh, rfl, rfl⟩
    · rw [if_neg hid] at h1
      cases h1 with
      | head => exact ⟨t, List.Mem.head _, rfl, rfl⟩
      | tail _ hh =>
        obtain ⟨t0, h0, he, hr⟩ := ih t1 hh
        exact ⟨t0, List.mem_cons_of_mem _ h0, he, hr⟩

/-- C2 (amended): update_task_status applies the requested status write
unconditionally — there is no transition check and no InvalidTransitionError
in the code.  Writing the same terminal status again indeed succeeds, but a
different status also succeeds: whenever a live task carries the id, the
store afterwards holds a task with that id whose status is exactly the
requested one, even when the task was Completed or Failed before. -/
theorem update_status_unconditional (st : QState) (tid : String)
    (s : TaskStatus) (r : Option Dict)
    (h : ∃ t0 ∈ _load_all_tasks st.fs, t0.id = tid) :
    ∃ t1 ∈ _load_all_tasks (update_task_status st WriteOutcome.ok tid s r).fs,
      t1.id = tid ∧ t1.status = s := by
  simp only [update_task_status, _persist_tasks, if_pos, _load_all_tasks]
  obtain ⟨t1, h1, hi, hs, _⟩ :=
    applyUpdate_first_match st.clock tid s r (_load_all_tasks st.fs) h
  exact ⟨t1, h1, hi, hs⟩

/-- Completed task with a recorded result, sitting in a live store. -/
def termTask : Task :=
  { id := "t1", title := "Done", assigned_agent := "w",
    status := TaskStatus.completed, priority := TaskPriority.medium,
    dependencies := [], payload := [], created_at := 0, updated_at := 1,
    assigned_at := none, completed_at := some 1,
    result := some [("k", Val.vstr "v")] }

/-- Queue state holding just the completed task. -/
def termQ : QState :=
  { fs := FileState.good [termTask], archive := [("t1", some termTask)],
    clock := 5 }

/-- Counterexample to C2: the task is Completed (terminal), yet
update_task_status with the different status Pending is not rejected — it
returns normally and the task's status afterwards is Pending, so the write
moved the task out of its terminal state. -/
theorem update_status_terminal_not_rejected :
    termTask.status = TaskStatus.completed ∧
    (get_task (update_task_status termQ WriteOutcome.ok "t1" TaskStatus.pending
        none).fs "t1").map Task.status = some TaskStatus.pending :=
  ⟨rfl, rfl⟩

/-- Witness for the amended C2: applying the theorem to the concrete
terminal-task store and the status Pending. -/
theorem update_status_unconditional_witness :
    ∃ t1 ∈ _load_all_tasks
      (update_task_status termQ WriteOutcome.ok "t1" TaskStatus.pending none).fs,
      t1.id = "t1" ∧ t1.status = TaskStatus.pending :=
  update_status_unconditional termQ "t1" TaskStatus.pending none
    ⟨termTask, List.Mem.head _, rfl⟩

/-- C6 (amended): the result field is written only by a Completed status
write, and is never cleared by any other write.  Consequently the claimed
invariant (result non-null iff Completed) fails: completing with a result
and then writing Failed leaves a non-Completed task with a non-null result,
and a Completed write stores exactly the supplied result, which may be
none. -/
theorem update_result_policy (st : QState) (tid : String) (s : TaskStatus)
    (r : Option Dict) :
    (s ≠ TaskStatus.completed →
      ∀ t1 ∈ _load_all_tasks (update_task_status st WriteOutcome.ok tid s r).fs,
        ∃ t0 ∈ _load_all_tasks st.fs,
          t1.id = t0.id ∧ t1.result = t0.result) ∧
    ((∃ t0 ∈ _load_all_tasks st.fs, t0.id = tid) →
      s = TaskStatus.completed →
      ∃ t1 ∈ _load_all_tasks (update_task_status st WriteOutcome.ok tid s r).fs,
        t1.id = tid ∧ t1.result = r) := by
  constructor
  · intro hs t1 h1
    simp only [update_task_status, _persist_tasks, if_pos,
      _load_all_tasks] at h1
    exact applyUpdate_result_preserved st.clock tid s r hs
      (_load_all_tasks st.fs) t1 h1
  · intro h hc
    simp only [update_task_status, _persist_tasks, if_pos, _load_all_tasks]
    obtain ⟨t1, h1, hi, _, hr⟩ :=
      applyUpdate_first_match st.clock tid s r (_load_all_tasks st.fs) h
    exact ⟨t1, h1, hi, hr hc⟩

/-- Fresh pending task without a result. -/
def freshTask : Task :=
  { id := "t2", title := "Job", assigned_agent := "w",
    status := TaskStatus.pending, priority := TaskPriority.medium,
    dependencies := [], payload := [], created_at := 0, updated_at := 0,
    assigned_at := none, completed_at := none, result := none }

/-- Queue state holding just the fresh task. -/
def freshQ : QState :=
  { fs := FileState.good [freshTask], archive := [], clock := 1 }

/-- State after completing the fresh task with a result. -/
def freshQdone : QState :=
  update_task_status freshQ WriteOutcome.ok "t2" TaskStatus.completed
    (some [("x", Val.vstr "1")])

/-- State after then writing Failed to the same task. -/
def freshQfailed : QState :=
  update_task_status freshQdone WriteOutcome.ok "t2" TaskStatus.failed none

/-- Counterexample to C6: run Create, UpdateStatus(Completed, result),
UpdateStatus(Failed) — afterwards the task's status is Failed while its
result is still the non-null completed-era result, violating the claimed
iff between a non-null result and status Completed. -/
theorem result_iff_completed_cex :
    (get_task freshQfailed.fs "t2").map Task.status =
      some TaskStatus.failed ∧
    (get_task freshQfailed.fs "t2").map Task.result =
      some (some [("x", Val.vstr "1")]) :=
  ⟨rfl, rfl⟩

/-- Witness for the amended C6: the completed write stores the supplied
result, and the subsequent Failed write preserves every result field. -/
theorem update_result_policy_witness :
    (∃ t1 ∈ _load_all_tasks
        (update_task_status freshQ WriteOutcome.ok "t2" TaskStatus.completed
          (some [("x", Val.vstr "1")])).fs,
        t1.id = "t2" ∧ t1.result = some [("x", Val.vstr "1")]) ∧
    (∀ t1 ∈ _load_all_tasks
        (update_task_status freshQdone WriteOutcome.ok "t2" TaskStatus.failed
          none).fs,
        ∃ t0 ∈ _load_all_tasks freshQdone.fs,
          t1.id = t0.id ∧ t1.result = t0.result) :=
  ⟨(update_result_policy freshQ "t2" TaskStatus.completed
      (some [("x", Val.vstr "1")])).2
      ⟨freshTask, List.Mem.head _, rfl⟩ rfl,
   (update_result_policy freshQdone "t2" TaskStatus.failed none).1
      (by decide)⟩

/-- C7 (amended): when the durable write of the task collection cannot
complete, add_task does NOT fail with a StorageError — _persist_tasks
swallows the exception after logging it — and the new task id is still
returned to the caller as if creation had succeeded, in every failure mode.
Already-committed file content survives only when open() itself fails
before touching the file; when the failure strikes during json.dump, the
file has already been truncated by open(file, "w") and is left unparseable,
so subsequent loads see an empty task set — committed state is NOT
protected either. -/
theorem add_task_write_failure (st : QState) (tid title agent : String)
    (payload : Dict) (prio : TaskPriority) (deps : List String) :
    (add_task st WriteOutcome.openFail tid title agent payload prio
      deps).2 = tid ∧
    (add_task st WriteOutcome.dumpFail tid title agent payload prio
      deps).2 = tid ∧
    (add_task st WriteOutcome.openFail tid title agent payload prio
      deps).1.fs = st.fs ∧
    (add_task st WriteOutcome.dumpFail tid title agent payload prio
      deps).1.fs = FileState.corrupt ∧
    _load_all_tasks (add_task st WriteOutcome.dumpFail tid title agent
      payload prio deps).1.fs = [] :=
  ⟨rfl, rfl, rfl, rfl, rfl⟩

/-- Already-committed task on disk before the failing creation. -/
def committedTask : Task :=
  { id := "old1", title := "Old", assigned_agent := "w",
    status := TaskStatus.completed, priority := TaskPriority.medium,
    dependencies := [], payload := [], created_at := 0, updated_at := 1,
    assigned_at := none, completed_at := some 1,
    result := some [("k", Val.vstr "v")] }

/-- Queue state whose next durable write will fail. -/
def diskFullQ : QState :=
  { fs := FileState.good [committedTask], archive := [], clock := 9 }

/-- Counterexample to C7: with json.dump failing mid-write, add_task still
returns the fresh id "new1" to the caller as a successful creation — no
StorageError reaches the caller — while the store contains neither the new
task nor the previously committed task old1: the truncated file has
corrupted already-committed state. -/
theorem add_task_write_failure_cex :
    (add_task diskFullQ WriteOutcome.dumpFail "new1" "New job" "w" []
      TaskPriority.medium []).2 = "new1" ∧
    get_task (add_task diskFullQ WriteOutcome.dumpFail "new1" "New job" "w"
      [] TaskPriority.medium []).1.fs "new1" = none ∧
    get_task (add_task diskFullQ WriteOutcome.dumpFail "new1" "New job" "w"
      [] TaskPriority.medium []).1.fs "old1" = none :=
  ⟨rfl, rfl, rfl⟩

/-- Status string "completed" characterizes exactly the completed state. -/
theorem statusValue_completed_iff (s : TaskStatus) :
    statusValue s = "completed" ↔ s = TaskStatus.completed := by
  cases s <;> decide

/-- Status string "failed" characterizes exactly the failed state. -/
theorem statusValue_failed_iff (s : TaskStatus) :
    statusValue s = "failed" ↔ s = TaskStatus.failed := by
  cases s <;> decide

/-- Status string "in_progress" characterizes exactly the in_progress
state. -/
theorem statusValue_in_progress_iff (s : TaskStatus) :
    statusValue s = "in_progress" ↔ s = TaskStatus.in_progress := by
  cases s <;> decide

/-- Normal form of the overall_status computation of get_pipeline_status,
used to state the characterization lemma; get_pipeline_status's projection
rewrites to it by map fusion. -/
def overallStatusOf (ts : List Task) : String :=
  if (ts.map fun t => statusValue t.status).all fun s =>
      decide (s = "completed") then "completed"
  else if (ts.map fun t => statusValue t.status).any fun s =>
      decide (s = "failed") then "failed"
  else if (ts.map fun t => statusValue t.status).any fun s =>
      decide (s = "in_progress") then "in_progress"
  else "pending"

/-- Characterization of the if-chain of get_pipeline_status over a task
list: completed iff all completed; failed iff not all completed and some
failed; in_progress iff additionally no failure and some in_progress;
pending otherwise. -/
theorem overall_characterization (ts : List Task) :
    (overallStatusOf ts = "completed" ↔
      ∀ t ∈ ts, t.status = TaskStatus.completed) ∧
    (overallStatusOf ts = "failed" ↔
      (¬ ∀ t ∈ ts, t.status = TaskStatus.completed) ∧
      ∃ t ∈ ts, t.status = TaskStatus.failed) ∧
    (overallStatusOf ts = "in_progress" ↔
      (¬ ∀ t ∈ ts, t.status = TaskStatus.completed) ∧
      (¬ ∃ t ∈ ts, t.status = TaskStatus.failed) ∧
      ∃ t ∈ ts, t.status = TaskStatus.in_progress) ∧
    (overallStatusOf ts = "pending" ↔
      (¬ ∀ t ∈ ts, t.status = TaskStatus.completed) ∧
      (¬ ∃ t ∈ ts, t.status = TaskStatus.failed) ∧
      ¬ ∃ t ∈ ts, t.status = TaskStatus.in_progress) := by
  have hc : ((ts.map fun t => statusValue t.status).all fun s =>
      decide (s = "completed")) = true ↔
      ∀ t ∈ ts, t.status = TaskStatus.completed := by
    simp [List.all_eq_true, List.mem_map, statusValue_completed_iff]
  have hf : ((ts.map fun t => statusValue t.status).any fun s =>
      decide (s = "failed")) = true ↔
      ∃ t ∈ ts, t.status = TaskStatus.failed := by
    simp [List.any_eq_true, List.mem_map, statusValue_failed_iff]
  have hi : ((ts.map fun t => statusValue t.status).any fun s =>
      decide (s = "in_progress")) = true ↔
      ∃ t ∈ ts, t.status = TaskStatus.in_progress := by
    simp [List.any_eq_true, List.mem_map, statusValue_in_progress_iff]
  unfold overallStatusOf
  by_cases h1 : ((ts.map fun t => statusValue t.status).all fun s =>
      decide (s = "completed")) = true
  · have pAll := hc.mp h1
    rw [if_pos h1]
    refine ⟨iff_of_true rfl pAll, ?_, ?_, ?_⟩
    · exact iff_of_false (by decide) fun h => h.1 pAll
    · exact iff_of_false (by decide) fun h => h.1 pAll
    · exact iff_of_false (by decide) fun h => h.1 pAll
  · have pNotAll : ¬ ∀ t ∈ ts, t.status = TaskStatus.completed :=
      fun hp => h1 (hc.mpr hp)
    rw [if_neg h1]
    by_cases h2 : ((ts.map fun t => statusValue t.status).any fun s =>
        decide (s = "failed")) = true
    · have pEx := hf.mp h2
      rw [if_pos h2]
      refine ⟨iff_of_false (by decide) pNotAll,
        iff_of_true rfl ⟨pNotAll, pEx⟩, ?_, ?_⟩
      · exact iff_of_false (by decide) fun h => h.2.1 pEx
      · exact iff_of_false (by decide) fun h => h.2.1 pEx
    · have pNoF : ¬ ∃ t ∈ ts, t.status = TaskStatus.failed :=
        fun hp => h2 (hf.mpr hp)
      rw [if_neg h2]
      by_cases h3 : ((ts.map fun t => statusValue t.status).any fun s =>
          decide (s = "in_progress")) = true
      · have pIp := hi.mp h3
        rw [if_pos h3]
        exact ⟨iff_of_false (by decide) pNotAll,
          iff_of_false (by decide) fun h => pNoF h.2,
          iff_of_true rfl ⟨pNotAll, pNoF, pIp⟩,
          iff_of_false (by decide) fun h => h.2.2 pIp⟩
      · have pNoI : ¬ ∃ t ∈ ts, t.status = TaskStatus.in_progress :=
          fun hp => h3 (hi.mpr hp)
        rw [if_neg h3]
        exact ⟨iff_of_false (by decide) pNotAll,
          iff_of_false (by decide) fun h => pNoF h.2,
          iff_of_false (by decide) fun h => pNoI h.2.2,
          iff_of_true rfl ⟨pNotAll, pNoF, pNoI⟩⟩

/-- C4 (amended): get_pipeline_status joins EVERY live task of the store —
the pipeline_id argument is never used to restrict the join, so tasks
outside the pipeline do influence the report — and over that full task set
overall_status is "completed" iff all tasks are completed, else "failed"
iff some task is failed, else "in_progress" iff some task is in progress,
else "pending". -/
theorem pipeline_status_joins_all_tasks (fs : FileState) (pid : String) :
    ((get_pipeline_status fs pid).tasks.map Prod.fst =
      (_load_all_tasks fs).map Task.id) ∧
    ((get_pipeline_status fs pid).overall_status = "completed" ↔
      ∀ t ∈ _load_all_tasks fs, t.status = TaskStatus.completed) ∧
    ((get_pipeline_status fs pid).overall_status = "failed" ↔
      (¬ ∀ t ∈ _load_all_tasks fs, t.status = TaskStatus.completed) ∧
      ∃ t ∈ _load_all_tasks fs, t.status = TaskStatus.failed) ∧
    ((get_pipeline_status fs pid).overall_status = "in_progress" ↔
      (¬ ∀ t ∈ _load_all_tasks fs, t.status = TaskStatus.completed) ∧
      (¬ ∃ t ∈ _load_all_tasks fs, t.status = TaskStatus.failed) ∧
      ∃ t ∈ _load_all_tasks fs, t.status = TaskStatus.in_progress) ∧
    ((get_pipeline_status fs pid).overall_status = "pending" ↔
      (¬ ∀ t ∈ _load_all_tasks fs, t.status = TaskStatus.completed) ∧
      (¬ ∃ t ∈ _load_all_tasks fs, t.status = TaskStatus.failed) ∧
      ¬ ∃ t ∈ _load_all_tasks fs, t.status = TaskStatus.in_progress) := by
  have h := overall_characterization (_load_all_tasks fs)
  have hov : (get_pipeline_status fs pid).overall_status =
      overallStatusOf (_load_all_tasks fs) := by
    simp only [get_pipeline_status, overallStatusOf, List.map_map]
    rfl
  refine ⟨?_, ?_, ?_, ?_, ?_⟩
  · simp only [get_pipeline_status, List.map_map]
    rfl
  · rw [hov]
    exact h.1
  · rw [hov]
    exact h.2.1
  · rw [hov]
    exact h.2.2.1
  · rw [hov]
    exact h.2.2.2

/-- Completed task belonging to the pipeline of the counterexample. -/
def pipeDoneTask : Task :=
  { id := "pipetask", title := "Pipe stage", assigned_agent := "w",
    status := TaskStatus.completed, priority := TaskPriority.high,
    dependencies := [], payload := [], created_at := 0, updated_at := 1,
    assigned_at := none, completed_at := some 1,
    result := some [("r", Val.vstr "x")] }

/-- Failed task that belongs to NO pipeline of interest. -/
def foreignFailedTask : Task :=
  { id := "foreign", title := "Unrelated", assigned_agent := "v",
    status := TaskStatus.failed, priority := TaskPriority.low,
    dependencies := [], payload := [], created_at := 2, updated_at := 3,
    assigned_at := none, completed_at := none, result := none }

/-- Store holding the pipeline's single completed task plus a foreign
failed task. -/
def mixedStoreFs : FileState :=
  FileState.good [pipeDoneTask, foreignFailedTask]

/-- Counterexample to C4: pipeline p1 consists solely of pipetask, which is
Completed, so the claim demands overallStatus = Completed computed from the
pipeline's own task ids only; yet get_pipeline_status reports "failed" and
even lists the foreign task, because it joins every live task regardless of
the pipeline. -/
theorem pipeline_status_foreign_task_cex :
    pipeDoneTask.status = TaskStatus.completed ∧
    (get_pipeline_status mixedStoreFs "p1").tasks.map Prod.fst =
      ["pipetask", "foreign"] ∧
    (get_pipeline_status mixedStoreFs "p1").overall_status = "failed" :=
  ⟨rfl, rfl, rfl⟩

/-- Witness for the amended C4: on a store whose every task is completed,
the completed branch of the characterization applies. -/
theorem pipeline_status_joins_all_tasks_witness :
    (get_pipeline_status (FileState.good [pipeDoneTask]) "pw").overall_status
      = "completed" :=
  (pipeline_status_joins_all_tasks (FileState.good [pipeDoneTask])
    "pw").2.1.mpr
    (by
      intro t ht
      cases ht with
      | head => rfl
      | tail _ hh => cases hh)

/-- Empty queue state used as the starting point of the pipeline runs. -/
def emptyQ : QState := { fs := FileState.good [], archive := [], clock := 0 }

/-- Freshly built 5-stage pipeline state for the wiring scenario. -/
def wiringBuilt : QState × Pipeline :=
  execute_content_pipeline emptyQ "p3" "res1" "ana1" "wri1" "seo1" "qua1"
    "Rust"

/-- Result recorded by the research stage. -/
def wiringResearchResult : Dict := [("findings", Val.vstr "facts about Rust")]

/-- Outline value recorded by the analysis stage. -/
def wiringOutlineVal : Val := Val.vobj [("section1", Val.vstr "intro")]

/-- Result recorded by the analysis stage. -/
def wiringAnalysisResult : Dict := [("outline", wiringOutlineVal)]

/-- State after the research task completed with its result. -/
def wiringAfterResearch : QState :=
  update_task_status wiringBuilt.1 WriteOutcome.ok "res1" TaskStatus.completed
    (some wiringResearchResult)

/-- State after the analysis task then completed with its result. -/
def wiringAfterAnalysis : QState :=
  update_task_status wiringAfterResearch WriteOutcome.ok "ana1" TaskStatus.completed
    (some wiringAnalysisResult)

/-- Payload of the writing task after the driver's wiring step (payload id
set, then _load_dependent_task_data), exactly as process_pending_tasks
computes it before dispatch. -/
def wiringWiredPayload : Dict :=
  match get_task wiringAfterAnalysis.fs "wri1" with
  | some t =>
    _load_dependent_task_data wiringAfterAnalysis.fs
      wiringAfterAnalysis.archive (setK t.payload "id" (Val.vstr t.id))
  | none => []

/-- C3 (code bug): in the 5-stage pipeline with research and analysis
completed, the wiring of the writing task does copy the outline from the
analysis result, but it does NOT re-resolve research_data: the code reads
research_task_id from the WRITING task's own payload, where the pipeline
builder never puts it, so research_data stays the empty seed dict even
though the research result is retrievable from the store — contradicting
the claimed (and commented) transitive re-resolution via the analysis
task's research_task_id reference. -/
theorem writer_wiring_drops_research_data :
    get_task_result wiringAfterAnalysis.fs wiringAfterAnalysis.archive
      "res1" = some wiringResearchResult ∧
    getK "research_task_id" wiringWiredPayload = none ∧
    getK "outline" wiringWiredPayload = some wiringOutlineVal ∧
    getK "research_data" wiringWiredPayload = some (Val.vobj []) :=
  ⟨rfl, rfl, rfl, rfl⟩

/-- Worker behaviour where every agent succeeds immediately with a fixed
non-empty result. -/
def happyExec : AgentExec := fun _ _ => some [("ok", Val.vstr "done")]

/-- Worker behaviour where the research agent always raises and every
other agent would succeed (the others are never reached). -/
def failingResearchExec : AgentExec := fun aid _ =>
  if aid = "agent:researcher:main" then none
  else some [("ok", Val.vstr "done")]

/-- Full pipeline run with the always-failing research worker. -/
def failRun : QState × Pipeline × Nat :=
  run_content_pipeline failingResearchExec "p8" "res1" "ana1" "wri1"
    "seo1" "qua1" "Rust" emptyQ

/-- C8: with a research worker that always fails, run_content_pipeline
terminates at exactly the configured iteration ceiling (MAX_ITERATIONS,
whose default is 20) — the downstream tasks stay Pending forever, so the
loop never converges but is cut off by the ceiling — and afterwards the
pipeline's reported overall status is "failed". -/
theorem run_pipeline_failing_research_bounded :
    failRun.2.2 = MAX_ITERATIONS ∧ MAX_ITERATIONS = 20 ∧
    (get_pipeline_status failRun.1.fs "p8").overall_status = "failed" :=
  ⟨rfl, rfl, rfl⟩

/-- Full pipeline run with workers that all succeed immediately. -/
def okRun : QState × Pipeline × Nat :=
  run_content_pipeline happyExec "p9" "res1" "ana1" "wri1" "seo1" "qua1"
    "Rust" emptyQ

/-- C9: with workers that always succeed immediately, run_content_pipeline
terminates with every pipeline task Completed and overall status
"completed", and the reported iteration count is at most 5 (in fact 1,
because within one iteration each later stage already sees its predecessor
completed). -/
theorem run_pipeline_all_success_converges :
    okRun.2.2 = 1 ∧ okRun.2.2 ≤ 5 ∧
    ((_load_all_tasks okRun.1.fs).all fun t =>
      decide (t.status = TaskStatus.completed)) = true ∧
    (get_pipeline_status okRun.1.fs "p9").overall_status = "completed" :=
  ⟨rfl, by decide, rfl, rfl⟩

/-- C10: when the persisted task file is missing, or unreadable or
unparseable (both modelled by FileState.corrupt, since _load_all_tasks
catches every exception and returns the empty list), every read operation
behaves as if the live queue were empty — get_task finds nothing and
get_pending_tasks is empty for every agent — while get_task_result still
answers from the archive fallback, so results of previously completed
archived tasks remain retrievable. -/
theorem load_failure_empty_reads (fs : FileState)
    (h : fs = FileState.missing ∨ fs = FileState.corrupt)
    (archive : Archive) (task_id agent_id : String) :
    _load_all_tasks fs = [] ∧
    get_task fs task_id = none ∧
    get_pending_tasks fs agent_id = [] ∧
    get_task_result fs archive task_id = archiveResult archive task_id ∧
    (∀ t : Task, lookupArchive archive task_id = some (some t) →
      get_task_result fs archive task_id = t.result) := by
  cases h with
  | inl h =>
    subst h
    refine ⟨rfl, rfl, rfl, rfl, ?_⟩
    intro t ht
    simp [get_task_result, get_task, _load_all_tasks, archiveResult, ht]
  | inr h =>
    subst h
    refine ⟨rfl, rfl, rfl, rfl, ?_⟩
    intro t ht
    simp [get_task_result, get_task, _load_all_tasks, archiveResult, ht]

/-- Archived completed task whose live record is gone. -/
def archivedDoneTask : Task :=
  { id := "t7", title := "Archived", assigned_agent := "w",
    status := TaskStatus.completed, priority := TaskPriority.medium,
    dependencies := [], payload := [], created_at := 0, updated_at := 1,
    assigned_at := none, completed_at := some 1,
    result := some [("out", Val.vstr "v")] }

/-- Archive directory holding the completed task's file. -/
def goodArchive : Archive := [("t7", some archivedDoneTask)]

/-- Witness for C10: with the task file missing and a populated archive,
reads see an empty queue and get_task_result answers from the archive. -/
theorem load_failure_empty_reads_witness :
    _load_all_tasks FileState.missing = [] ∧
    get_task FileState.missing "t7" = none ∧
    get_pending_tasks FileState.missing "w" = [] ∧
    get_task_result FileState.missing goodArchive "t7" =
      archiveResult goodArchive "t7" ∧
    (∀ t : Task, lookupArchive goodArchive "t7" = some (some t) →
      get_task_result FileState.missing goodArchive "t7" = t.result) :=
  load_failure_empty_reads FileState.missing (Or.inl rfl) goodArchive
    "t7" "w"

end OpenClawAgents
